import Mathlib

/-!
Verification of the hardware recommender core
(`hardware_recommender_simple_reflex.py`).

The embedding models the rule catalog (`RULES`, `DEFAULT`, `_RULE_INDEX`,
`COMBO_RULES`, `GPU_RANK_LABEL`), the scaling helpers (`_scale_cpu`,
`_scale_storage`) and the engine `recommend`.  Python dictionary indexing
that can raise `KeyError` is modelled with `Option`: a `none` result of
`recommend` corresponds to an uncaught exception escaping the function.
-/

/-- The immutable value object produced by rules (`Spec` dataclass). -/
structure Spec where
  cpu : String
  ram_gb : Nat
  storage : String
  gpu : String
  notes : String := ""
deriving DecidableEq, Repr

/-- One entry of the `RULES` table: `(workload_id, label, base human spec,
numeric meta)`.  The meta dict keys `cores`, `ram`, `storage`, `gpu_rank`
become fields. -/
structure Rule where
  id : String
  label : String
  base : Spec
  cores : Nat
  ram : Nat
  storage : Nat
  gpu_rank : Nat
deriving DecidableEq, Repr

/-- The `RULES` list, entry for entry in source order. -/
def RULES : List Rule := [
  { id := "ml", label := "AI / Machine Learning / Data Science",
    base := { cpu := "12+ core modern CPU", ram_gb := 64, storage := "1TB NVMe SSD",
              gpu := "High-end NVIDIA (e.g., RTX 4080/4090)",
              notes := "Heavy ML workloads need strong GPU & RAM." },
    cores := 12, ram := 64, storage := 1000, gpu_rank := 5 },
  { id := "hpc", label := "Scientific / HPC Simulation",
    base := { cpu := "16+ core CPU (multi-socket beneficial)", ram_gb := 128,
              storage := "2TB NVMe + Scratch SSD", gpu := "High-end or Multi-GPU",
              notes := "CPU core count & memory bandwidth critical." },
    cores := 16, ram := 128, storage := 2000, gpu_rank := 6 },
  { id := "video", label := "Video Editing / 3D / Rendering",
    base := { cpu := "8+ core CPU", ram_gb := 32, storage := "1TB NVMe SSD",
              gpu := "High-mid GPU (e.g., RTX 4070)",
              notes := "GPU VRAM and fast storage matter." },
    cores := 8, ram := 32, storage := 1000, gpu_rank := 4 },
  { id := "stream", label := "Streaming / Capture",
    base := { cpu := "8 core high clock CPU", ram_gb := 32, storage := "1TB NVMe SSD",
              gpu := "Mid-high GPU (NVENC capable)",
              notes := "Extra threads help encode + play/produce." },
    cores := 8, ram := 32, storage := 1000, gpu_rank := 4 },
  { id := "gaming", label := "Gaming (AAA)",
    base := { cpu := "6-8 core high clock CPU", ram_gb := 16, storage := "1TB NVMe SSD",
              gpu := "Mid-high GPU (e.g., RTX 3060/3070)",
              notes := "Balance CPU/GPU; 16GB RAM baseline." },
    cores := 8, ram := 16, storage := 1000, gpu_rank := 4 },
  { id := "vr", label := "VR / AR Development",
    base := { cpu := "8+ core CPU", ram_gb := 32, storage := "1TB NVMe SSD",
              gpu := "High-mid GPU (90+ FPS capable)",
              notes := "Low latency + GPU headroom important." },
    cores := 8, ram := 32, storage := 1000, gpu_rank := 4 },
  { id := "photo", label := "Photography / Graphic Design",
    base := { cpu := "6 core CPU", ram_gb := 32, storage := "1TB NVMe SSD",
              gpu := "Mid GPU or Integrated",
              notes := "RAM + fast scratch disk help large RAW edits." },
    cores := 6, ram := 32, storage := 1000, gpu_rank := 3 },
  { id := "audio", label := "Audio Production / DAW",
    base := { cpu := "6-8 core low-latency CPU", ram_gb := 32, storage := "1TB NVMe SSD",
              gpu := "Integrated or entry GPU",
              notes := "Low DPC latency and RAM for sample libraries." },
    cores := 8, ram := 32, storage := 1000, gpu_rank := 2 },
  { id := "dev", label := "Programming / Software Dev",
    base := { cpu := "6 core CPU", ram_gb := 16, storage := "512GB SSD",
              gpu := "Integrated or entry GPU",
              notes := "RAM helps with IDEs & containers." },
    cores := 6, ram := 16, storage := 512, gpu_rank := 2 },
  { id := "security", label := "Cybersecurity / PenTesting",
    base := { cpu := "8 core CPU", ram_gb := 32, storage := "1TB SSD",
              gpu := "Optional / entry GPU",
              notes := "RAM & cores for many tools / VMs." },
    cores := 8, ram := 32, storage := 1000, gpu_rank := 2 },
  { id := "office_plus", label := "Heavy Productivity (Many Tabs)",
    base := { cpu := "6 core CPU", ram_gb := 32, storage := "1TB SSD",
              gpu := "Integrated",
              notes := "Extra RAM keeps multitasking smooth." },
    cores := 6, ram := 32, storage := 1000, gpu_rank := 1 },
  { id := "office", label := "Light Office / Browsing",
    base := { cpu := "4 core energy-efficient CPU", ram_gb := 8, storage := "256-512GB SSD",
              gpu := "Integrated",
              notes := "Low intensity general tasks." },
    cores := 4, ram := 8, storage := 512, gpu_rank := 1 },
  { id := "homelab", label := "Home Lab / NAS",
    base := { cpu := "8-12 core CPU", ram_gb := 32, storage := "4TB+ mixed SSD/HDD",
              gpu := "Optional",
              notes := "Consider ECC RAM & redundancy." },
    cores := 12, ram := 32, storage := 4000, gpu_rank := 1 },
  { id := "server", label := "Server / Virtualization / Docker",
    base := { cpu := "12+ core CPU", ram_gb := 64, storage := "2TB SSD+",
              gpu := "Optional",
              notes := "Cores & RAM for many VMs/containers." },
    cores := 12, ram := 64, storage := 2000, gpu_rank := 1 },
  { id := "budget", label := "Entry Level / Budget",
    base := { cpu := "4-6 core CPU", ram_gb := 16, storage := "512GB SSD",
              gpu := "Integrated or basic GPU",
              notes := "Aim for balance; upgrade later." },
    cores := 6, ram := 16, storage := 512, gpu_rank := 1 }
]

/-- The `DEFAULT` spec returned for an empty (or fully unknown multi)
selection. -/
def DEFAULT : Spec :=
  { cpu := "4-6 core CPU", ram_gb := 16, storage := "512GB SSD",
    gpu := "Integrated or basic GPU", notes := "Default balanced build." }

/-- `_RULE_INDEX[i]`: dictionary lookup of a rule by workload id.
`none` models a `KeyError` / failed `in` test.  The ids in `RULES` are
pairwise distinct, so first-match lookup agrees with the Python dict. -/
def RULE_INDEX (i : String) : Option Rule :=
  RULES.find? (fun r => r.id == i)

/-- `frozenset(a) == frozenset(b)`: equality of the underlying sets,
ignoring order and duplicates. -/
def sameSet (a b : List String) : Bool :=
  a.all (fun x => b.contains x) && b.all (fun x => a.contains x)

/-- The `COMBO_RULES` override table: frozenset key (as an id list compared
with `sameSet`) to curated spec. -/
def COMBO_RULES : List (List String × Spec) := [
  (["gaming", "stream"],
   { cpu := "8+ core high clock CPU", ram_gb := 32, storage := "1TB NVMe SSD",
     gpu := "High-mid GPU (e.g., RTX 4070)",
     notes := "Streaming + gaming benefits from extra threads & RAM." }),
  (["ml", "server"],
   { cpu := "16+ core CPU", ram_gb := 128, storage := "2TB NVMe SSD",
     gpu := "High-end NVIDIA (e.g., RTX 4090)",
     notes := "Combine ML training with virtualization headroom." }),
  (["gaming", "vr"],
   { cpu := "8+ core high clock CPU", ram_gb := 32, storage := "1TB NVMe SSD",
     gpu := "High-mid GPU (High refresh capable)",
     notes := "VR adds latency + frame rate pressure over gaming." })
]

/-- `fs in COMBO_RULES` followed by `COMBO_RULES[fs]`. -/
def findCombo (ids : List String) : Option Spec :=
  (COMBO_RULES.find? (fun p => sameSet p.1 ids)).map (fun p => p.2)

/-- `GPU_RANK_LABEL` dict; `none` models a `KeyError` for a rank outside
1..6. -/
def GPU_RANK_LABEL (n : Nat) : Option String :=
  match n with
  | 1 => some "Integrated"
  | 2 => some "Entry GPU (e.g., GTX 1650)"
  | 3 => some "Mid GPU (e.g., RTX 3050/3060)"
  | 4 => some "Mid-High GPU (e.g., RTX 3070/4070)"
  | 5 => some "High-End GPU (e.g., RTX 4080/4090)"
  | 6 => some "High-End Multi-GPU / Pro"
  | _ => none

/-- `_scale_cpu`. -/
def scale_cpu (cores : Nat) : String :=
  if cores ≥ 16 then "16+ core modern CPU"
  else if cores ≥ 12 then "12+ core modern CPU"
  else if cores ≥ 8 then "8 core high clock CPU"
  else if cores ≥ 6 then "6 core CPU"
  else "4 core CPU"

/-- `_scale_storage`. -/
def scale_storage (gb : Nat) : String :=
  if gb ≥ 4000 then "4TB+ mixed SSD/HDD"
  else if gb ≥ 2000 then "2TB NVMe SSD"
  else if gb ≥ 1000 then "1TB NVMe SSD"
  else if gb ≥ 512 then "512GB SSD"
  else "256-512GB SSD"

/-- `note.split('.')[0]`: the prefix of a note before its first period
(the whole note when it has none), used as the dedup key of the notes
merge.  Computed on the character list so that it reduces definitionally. -/
def noteKey (note : String) : String :=
  String.mk (note.data.takeWhile (fun c => c != '.'))

/-- The notes-merge loop of `recommend` (lines 307-314): iterate the ids in
caller order, look each id up in `_RULE_INDEX` (raising `KeyError` — `none`
— when absent), keep the full note on the first occurrence of its key.
Returns the accumulated `note_parts`. -/
def mergeNotes : List String → List String → Option (List String)
  | [], _ => some []
  | i :: rest, seen =>
    match RULE_INDEX i with
    | none => none
    | some r =>
      if seen.contains (noteKey r.base.notes) then mergeNotes rest seen
      else (mergeNotes rest (noteKey r.base.notes :: seen)).map
             (fun ps => r.base.notes :: ps)

/-- The multi-select aggregation branch of `recommend` (lines 298-322):
numeric maxima over the known rules, defensive `DEFAULT` when no known rule
remains, notes merge capped to 4 parts joined with `" | "`, GPU label
lookup. -/
def aggregate (ids : List String) : Option Spec :=
  let metas := ids.filterMap RULE_INDEX
  if metas = [] then some DEFAULT
  else
    let max_cores := (metas.map Rule.cores).foldl Nat.max 0
    let max_ram := (metas.map Rule.ram).foldl Nat.max 0
    let max_storage := (metas.map Rule.storage).foldl Nat.max 0
    let max_gpu := (metas.map Rule.gpu_rank).foldl Nat.max 0
    match mergeNotes ids [] with
    | none => none
    | some parts =>
      match GPU_RANK_LABEL max_gpu with
      | none => none
      | some glabel =>
        some { cpu := scale_cpu max_cores, ram_gb := max_ram,
               storage := scale_storage max_storage, gpu := glabel,
               notes := String.intercalate " | " (parts.take 4) }

/-- `recommend(ids)`.  `none` models an uncaught Python exception. -/
def recommend (ids : List String) : Option Spec :=
  if ids = [] then some DEFAULT
  else
    match findCombo ids with
    | some s => some s
    | none =>
      if ids.length = 1 then (RULE_INDEX (ids.headD "")).map Rule.base
      else aggregate ids

/-- Claim C8: `recommend` of the empty selection returns exactly
`DEFAULT`, the constant spec with cpu "4-6 core CPU", 16 GB RAM,
"512GB SSD", "Integrated or basic GPU", notes "Default balanced build.". -/
theorem C8_empty_default :
    recommend [] = some DEFAULT ∧
    DEFAULT = { cpu := "4-6 core CPU", ram_gb := 16, storage := "512GB SSD",
                gpu := "Integrated or basic GPU", notes := "Default balanced build." } :=
  ⟨rfl, rfl⟩

/-- Claim C1 (code bug): on the singleton unknown selection
`["nonexistent"]` the engine hits `_RULE_INDEX[ids[0]]` and raises
`KeyError` (modelled by `none`) instead of returning `DEFAULT`. -/
theorem C1_unknown_singleton_raises : recommend ["nonexistent"] = none := rfl

/-- Claim C2 (code bug): a multi-select mixing a known and an unknown id
drops the unknown id from the numeric maxima, but the notes-merge loop
indexes `_RULE_INDEX` unfiltered and raises `KeyError` (modelled by
`none`). -/
theorem C2_mixed_unknown_raises : recommend ["dev", "nonexistent"] = none := rfl

/-- Claim C3: `recommend ["office", "server"]` (no override for the pair)
returns the element-wise maxima: cpu "12+ core modern CPU" (cores 12),
ram 64, storage "2TB NVMe SSD" (2000 GB), gpu "Integrated" (rank 1). -/
theorem C3_office_server_maxima :
    ∃ s, recommend ["office", "server"] = some s ∧
      s.cpu = "12+ core modern CPU" ∧ s.ram_gb = 64 ∧
      s.storage = "2TB NVMe SSD" ∧ s.gpu = "Integrated" :=
  ⟨{ cpu := "12+ core modern CPU", ram_gb := 64, storage := "2TB NVMe SSD",
     gpu := "Integrated",
     notes := "Low intensity general tasks. | Cores & RAM for many VMs/containers." },
   rfl, rfl, rfl, rfl, rfl⟩

/-- Claim C10: duplicating a known id (`["dev", "dev"]`) skips the
singleton branch and aggregates the single rule, so the gpu field becomes
the rank-2 label "Entry GPU (e.g., GTX 1650)" instead of the base spec's
"Integrated or entry GPU"; the result differs from `recommend ["dev"]`. -/
theorem C10_duplicate_sensitive :
    recommend ["dev", "dev"] =
      some { cpu := "6 core CPU", ram_gb := 16, storage := "512GB SSD",
             gpu := "Entry GPU (e.g., GTX 1650)",
             notes := "RAM helps with IDEs & containers." } ∧
    recommend ["dev"] =
      some { cpu := "6 core CPU", ram_gb := 16, storage := "512GB SSD",
             gpu := "Integrated or entry GPU",
             notes := "RAM helps with IDEs & containers." } ∧
    recommend ["dev", "dev"] ≠ recommend ["dev"] :=
  ⟨rfl, rfl, by decide⟩

/-! ### Maxima folds -/

lemma init_le_foldl_max : ∀ (l : List Nat) (a : Nat), a ≤ l.foldl Nat.max a
  | [], _ => Nat.le_refl _
  | x :: xs, a =>
    Nat.le_trans (Nat.le_max_left a x) (init_le_foldl_max xs (Nat.max a x))

lemma le_foldl_max : ∀ (l : List Nat) (a x : Nat), x ∈ l → x ≤ l.foldl Nat.max a := by
  intro l
  induction l with
  | nil => intro a x hx; cases hx
  | cons y ys ih =>
    intro a x hx
    rcases List.mem_cons.1 hx with h | h
    · subst h
      exact Nat.le_trans (Nat.le_max_right a x) (init_le_foldl_max ys (Nat.max a x))
    · exact ih (Nat.max a y) x h

lemma foldl_max_eq_or_mem : ∀ (l : List Nat) (a : Nat),
    l.foldl Nat.max a = a ∨ l.foldl Nat.max a ∈ l := by
  intro l
  induction l with
  | nil => intro a; exact Or.inl rfl
  | cons x xs ih =>
    intro a
    rcases ih (Nat.max a x) with h | h
    · rcases Nat.le_total a x with hax | hxa
      · right
        have hx : Nat.max a x = x := Nat.max_eq_right hax
        rw [List.foldl_cons, h, hx]
        exact List.mem_cons_self x xs
      · left
        have hx : Nat.max a x = a := Nat.max_eq_left hxa
        rw [List.foldl_cons, h, hx]
    · right
      exact List.mem_cons_of_mem x h

lemma foldl_max_perm {l l' : List Nat} (h : l.Perm l') :
    ∀ a, l.foldl Nat.max a = l'.foldl Nat.max a := by
  induction h with
  | nil => intro a; rfl
  | cons x _ ih => intro a; simp only [List.foldl_cons]; exact ih _
  | swap x y l =>
    intro a
    simp only [List.foldl_cons]
    have hc : Nat.max (Nat.max a y) x = Nat.max (Nat.max a x) y :=
      (Nat.max_assoc a y x).trans
        ((congrArg (Nat.max a) (Nat.max_comm y x)).trans (Nat.max_assoc a x y).symm)
    rw [hc]
  | trans _ _ ih1 ih2 => intro a; rw [ih1 a, ih2 a]

/-! ### `sameSet` (frozenset equality) -/

lemma sameSet_iff (a b : List String) :
    sameSet a b = true ↔ ((∀ x ∈ a, x ∈ b) ∧ ∀ x ∈ b, x ∈ a) := by
  simp [sameSet, List.all_eq_true, List.contains, List.elem_eq_mem]

lemma sameSet_perm {b b' : List String} (a : List String) (h : b.Perm b') :
    sameSet a b = sameSet a b' := by
  by_cases hb : sameSet a b = true
  · have h1 := (sameSet_iff a b).1 hb
    have h2 : sameSet a b' = true :=
      (sameSet_iff a b').2
        ⟨fun x hx => h.mem_iff.1 (h1.1 x hx), fun x hx => h1.2 x (h.mem_iff.2 hx)⟩
    rw [hb, h2]
  · have h2 : sameSet a b' ≠ true := by
      intro htrue
      have h1 := (sameSet_iff a b').1 htrue
      exact hb ((sameSet_iff a b).2
        ⟨fun x hx => h.mem_iff.2 (h1.1 x hx), fun x hx => h1.2 x (h.mem_iff.1 hx)⟩)
    rw [Bool.eq_false_iff.2 hb, Bool.eq_false_iff.2 h2]

lemma find?_sameSet_congr {ids ids' : List String}
    (h : ∀ k, sameSet k ids = sameSet k ids') :
    ∀ l : List (List String × Spec),
      l.find? (fun p => sameSet p.1 ids) = l.find? (fun p => sameSet p.1 ids') := by
  intro l
  induction l with
  | nil => rfl
  | cons p rest ih =>
    simp only [List.find?]
    rw [h p.1, ih]

lemma findCombo_perm {ids ids' : List String} (h : ids.Perm ids') :
    findCombo ids = findCombo ids' := by
  unfold findCombo
  rw [find?_sameSet_congr (fun k => sameSet_perm k h) COMBO_RULES]

/-! ### Catalog facts -/

lemma mem_RULES_of_index {i : String} {r : Rule} (h : RULE_INDEX i = some r) :
    r ∈ RULES :=
  List.mem_of_find?_eq_some h

lemma rules_gpu_label_isSome : ∀ r ∈ RULES, (GPU_RANK_LABEL r.gpu_rank).isSome := by
  decide

lemma rules_gpu_rank_pos : ∀ r ∈ RULES, 1 ≤ r.gpu_rank := by
  decide

/-- The maximum `gpu_rank` over a nonempty list of known rules is a valid
key of `GPU_RANK_LABEL`. -/
lemma gpu_label_of_max {metas : List Rule} (hsub : ∀ m ∈ metas, m ∈ RULES)
    (hne : metas ≠ []) :
    (GPU_RANK_LABEL ((metas.map Rule.gpu_rank).foldl Nat.max 0)).isSome := by
  rcases foldl_max_eq_or_mem (metas.map Rule.gpu_rank) 0 with h0 | hmem
  · rcases metas with _ | ⟨m, rest⟩
    · exact absurd rfl hne
    · have hm : m.gpu_rank ∈ (m :: rest).map Rule.gpu_rank := by
        simp
      have hle := le_foldl_max ((m :: rest).map Rule.gpu_rank) 0 m.gpu_rank hm
      rw [h0] at hle
      have hpos := rules_gpu_rank_pos m (hsub m (List.mem_cons_self m rest))
      omega
  · rcases List.mem_map.1 hmem with ⟨m, hmmem, hrank⟩
    rw [← hrank]
    exact rules_gpu_label_isSome m (hsub m hmmem)

/-! ### Notes merge -/

/-- The base notes of the ids that resolve in the catalog, in caller
order. -/
def notesOf (ids : List String) : List String :=
  ids.filterMap (fun i => (RULE_INDEX i).map (fun r => r.base.notes))

/-- The dedup loop of the notes merge, phrased on the note list: keep a
note when its key was not seen yet. -/
def dedupNotesAux : List String → List String → List String
  | _, [] => []
  | seen, n :: rest =>
    if seen.contains (noteKey n) then dedupNotesAux seen rest
    else n :: dedupNotesAux (noteKey n :: seen) rest

/-- On ids that all resolve, the notes loop cannot raise and computes the
key-dedup of the note list. -/
lemma mergeNotes_known : ∀ (ids seen : List String),
    (∀ i ∈ ids, (RULE_INDEX i).isSome) →
    mergeNotes ids seen = some (dedupNotesAux seen (notesOf ids)) := by
  intro ids
  induction ids with
  | nil => intro seen _; rfl
  | cons i rest ih =>
    intro seen hk
    obtain ⟨r, hr⟩ := Option.isSome_iff_exists.1 (hk i (List.mem_cons_self i rest))
    have hrest : ∀ j ∈ rest, (RULE_INDEX j).isSome :=
      fun j hj => hk j (List.mem_cons_of_mem i hj)
    simp only [mergeNotes, hr, notesOf, List.filterMap_cons, Option.map_some]
    by_cases hc : seen.contains (noteKey r.base.notes) = true
    · rw [if_pos hc, ih seen hrest]
      simp only [notesOf, dedupNotesAux, hc, if_pos]
    · rw [Bool.not_eq_true] at hc
      rw [if_neg (by rw [hc]; exact Bool.false_ne_true), ih (noteKey r.base.notes :: seen) hrest]
      simp only [notesOf, dedupNotesAux, hc, Bool.false_eq_true, if_false]
      rfl

/-- The notes dedup as the spec words it: keep each note and drop the
later notes whose key repeats it. -/
def specDedupNotes : List String → List String
  | [] => []
  | n :: rest =>
    n :: specDedupNotes (rest.filter (fun m => !(noteKey m == noteKey n)))
termination_by l => l.length
decreasing_by
  simp only [List.length_cons]
  exact Nat.lt_succ_of_le (List.length_filter_le _ _)

lemma dedupNotesAux_eq_spec : ∀ (l seen : List String),
    dedupNotesAux seen l =
      specDedupNotes (l.filter (fun n => !(seen.contains (noteKey n)))) := by
  intro l
  induction l with
  | nil => intro seen; simp [dedupNotesAux, specDedupNotes]
  | cons n rest ih =>
    intro seen
    by_cases hc : seen.contains (noteKey n) = true
    · simp only [dedupNotesAux, hc, if_pos, List.filter_cons, Bool.not_true,
        Bool.false_eq_true, if_false]
      exact ih seen
    · rw [Bool.not_eq_true] at hc
      simp only [dedupNotesAux, hc, Bool.false_eq_true, if_false, List.filter_cons,
        Bool.not_false, if_true]
      rw [specDedupNotes, ih (noteKey n :: seen), List.filter_filter]
      congr 1
      apply congrArg
      apply List.filter_congr
      intro m _
      simp only [List.contains_cons, Bool.not_or]

/-! ### Branch lemmas for `recommend` -/

lemma recommend_of_combo {ids : List String} {s : Spec} (hne : ids ≠ [])
    (hc : findCombo ids = some s) : recommend ids = some s := by
  unfold recommend
  rw [if_neg hne, hc]

lemma recommend_of_agg {ids : List String} (h2 : 2 ≤ ids.length)
    (hc : findCombo ids = none) : recommend ids = aggregate ids := by
  have hne : ids ≠ [] := by
    intro h
    rw [h] at h2
    exact absurd h2 (by decide)
  have hlen : ids.length ≠ 1 := by omega
  unfold recommend
  rw [if_neg hne, hc, if_neg hlen]

lemma sameSet_pair_single (x y z : String) (hxy : x ≠ y) :
    sameSet [x, y] [z] = false := by
  apply Bool.eq_false_iff.2
  intro htrue
  have hf := ((sameSet_iff [x, y] [z]).1 htrue).1
  have hx := hf x (by simp)
  have hy := hf y (by simp)
  simp only [List.mem_singleton] at hx hy
  exact hxy (hx.trans hy.symm)

lemma singleton_no_combo (i : String) : findCombo [i] = none := by
  simp only [findCombo, COMBO_RULES, List.find?,
    sameSet_pair_single "gaming" "stream" i (by decide),
    sameSet_pair_single "ml" "server" i (by decide),
    sameSet_pair_single "gaming" "vr" i (by decide)]
  rfl

lemma recommend_singleton {i : String} {r : Rule} (hr : RULE_INDEX i = some r) :
    recommend [i] = some r.base := by
  unfold recommend
  rw [if_neg (List.cons_ne_nil i []), singleton_no_combo i]
  simp [hr]

/-- The aggregation branch on known, nonempty ids: no failure, and every
field is the stated function of the numeric maxima of the resolved rules. -/
lemma aggregate_known (ids : List String)
    (hk : ∀ i ∈ ids, (RULE_INDEX i).isSome) (hne : ids ≠ []) :
    ∃ label,
      GPU_RANK_LABEL (((ids.filterMap RULE_INDEX).map Rule.gpu_rank).foldl Nat.max 0)
        = some label ∧
      aggregate ids = some
        { cpu := scale_cpu (((ids.filterMap RULE_INDEX).map Rule.cores).foldl Nat.max 0),
          ram_gb := ((ids.filterMap RULE_INDEX).map Rule.ram).foldl Nat.max 0,
          storage :=
            scale_storage (((ids.filterMap RULE_INDEX).map Rule.storage).foldl Nat.max 0),
          gpu := label,
          notes := String.intercalate " | " ((dedupNotesAux [] (notesOf ids)).take 4) } := by
  have hmet : ids.filterMap RULE_INDEX ≠ [] := by
    rcases ids with _ | ⟨i, rest⟩
    · exact absurd rfl hne
    · obtain ⟨r, hr⟩ := Option.isSome_iff_exists.1 (hk i (List.mem_cons_self i rest))
      simp [List.filterMap_cons, hr]
  have hsub : ∀ m ∈ ids.filterMap RULE_INDEX, m ∈ RULES := by
    intro m hm
    rcases List.mem_filterMap.1 hm with ⟨i, _, hr⟩
    exact mem_RULES_of_index hr
  obtain ⟨label, hl⟩ :=
    Option.isSome_iff_exists.1 (gpu_label_of_max hsub hmet)
  refine ⟨label, hl, ?_⟩
  unfold aggregate
  simp only []
  rw [if_neg hmet, mergeNotes_known ids [] hk, hl]

lemma sameSet_false_of_not_mem {k ids : List String} {x : String}
    (hx : x ∈ k) (hnx : x ∉ ids) : sameSet k ids = false :=
  Bool.eq_false_iff.2 (fun ht => hnx (((sameSet_iff k ids).1 ht).1 x hx))

/-- Claim C5: for every known id, the singleton selection returns that
rule's base spec verbatim; in particular `recommend ["dev"]` is exactly the
`dev` base spec. -/
theorem C5_singleton_passthrough :
    (∀ (i : String) (r : Rule), RULE_INDEX i = some r → recommend [i] = some r.base) ∧
    recommend ["dev"] =
      some { cpu := "6 core CPU", ram_gb := 16, storage := "512GB SSD",
             gpu := "Integrated or entry GPU",
             notes := "RAM helps with IDEs & containers." } :=
  ⟨fun _ _ hr => recommend_singleton hr, rfl⟩

/-- Witness for C5 at the concrete known id "audio". -/
theorem C5_singleton_passthrough_witness :
    recommend ["audio"] =
      some { cpu := "6-8 core low-latency CPU", ram_gb := 32, storage := "1TB NVMe SSD",
             gpu := "Integrated or entry GPU",
             notes := "Low DPC latency and RAM for sample libraries." } :=
  C5_singleton_passthrough.1 "audio" _ rfl

/-- Claim C4: a selection set-equal (order and duplicates ignored) to an
override key returns that override's spec unchanged; in particular
`recommend ["gaming", "stream"]` is the curated override and not the
generic maxima aggregation of the two base rules. -/
theorem C4_override_precedence :
    (∀ (ids k : List String) (s : Spec),
        (k, s) ∈ COMBO_RULES → sameSet k ids = true → recommend ids = some s) ∧
    recommend ["gaming", "stream"] =
      some { cpu := "8+ core high clock CPU", ram_gb := 32, storage := "1TB NVMe SSD",
             gpu := "High-mid GPU (e.g., RTX 4070)",
             notes := "Streaming + gaming benefits from extra threads & RAM." } ∧
    recommend ["gaming", "stream"] ≠ aggregate ["gaming", "stream"] := by
  refine ⟨?_, rfl, by decide⟩
  intro ids k s hmem hss
  have hmemk := ((sameSet_iff k ids).1 hss).1
  have hsub := ((sameSet_iff k ids).1 hss).2
  simp only [COMBO_RULES, List.mem_cons, List.not_mem_nil, or_false] at hmem
  rcases hmem with h | h | h <;>
    rcases Prod.mk.injEq .. ▸ h with ⟨hk, hs⟩ <;> subst hk <;> subst hs
  · have hg : "gaming" ∈ ids := hmemk "gaming" (by simp)
    have hne : ids ≠ [] := fun h => by rw [h] at hg; exact absurd hg (List.not_mem_nil _)
    apply recommend_of_combo hne
    simp [findCombo, COMBO_RULES, List.find?, hss]
  · have hml : "ml" ∈ ids := hmemk "ml" (by simp)
    have hne : ids ≠ [] := fun h => by rw [h] at hml; exact absurd hml (List.not_mem_nil _)
    have hf1 : sameSet ["gaming", "stream"] ids = false :=
      sameSet_false_of_not_mem (by simp)
        (fun hg => absurd (hsub "gaming" hg) (by decide))
    apply recommend_of_combo hne
    simp [findCombo, COMBO_RULES, List.find?, hf1, hss]
  · have hg : "gaming" ∈ ids := hmemk "gaming" (by simp)
    have hne : ids ≠ [] := fun h => by rw [h] at hg; exact absurd hg (List.not_mem_nil _)
    have hf1 : sameSet ["gaming", "stream"] ids = false :=
      sameSet_false_of_not_mem (x := "stream") (by simp)
        (fun hstr => absurd (hsub "stream" hstr) (by decide))
    have hf2 : sameSet ["ml", "server"] ids = false :=
      sameSet_false_of_not_mem (x := "ml") (by simp)
        (fun hml => absurd (hsub "ml" hml) (by decide))
    apply recommend_of_combo hne
    simp [findCombo, COMBO_RULES, List.find?, hf1, hf2, hss]

/-- Witness for C4: the gaming/stream override fires for a reordered,
duplicated selection of the same underlying set. -/
theorem C4_override_precedence_witness :
    recommend ["stream", "gaming", "stream"] =
      some { cpu := "8+ core high clock CPU", ram_gb := 32, storage := "1TB NVMe SSD",
             gpu := "High-mid GPU (e.g., RTX 4070)",
             notes := "Streaming + gaming benefits from extra threads & RAM." } :=
  C4_override_precedence.1 ["stream", "gaming", "stream"] ["gaming", "stream"] _
    (by decide) (by decide)

/-- Claim C9: every `gpu_rank` in the catalog has a label, and the maximum
rank computed by the aggregation over any selection that resolves to at
least one known rule is a valid key of `GPU_RANK_LABEL`, so the label
lookup performed mid-recommendation cannot fail. -/
theorem C9_gpu_rank_safety :
    (∀ r ∈ RULES, (GPU_RANK_LABEL r.gpu_rank).isSome = true) ∧
    (∀ ids : List String, ids.filterMap RULE_INDEX ≠ [] →
      (GPU_RANK_LABEL
        (((ids.filterMap RULE_INDEX).map Rule.gpu_rank).foldl Nat.max 0)).isSome = true) := by
  refine ⟨rules_gpu_label_isSome, ?_⟩
  intro ids hmet
  refine gpu_label_of_max ?_ hmet
  intro m hm
  rcases List.mem_filterMap.1 hm with ⟨i, _, hr⟩
  exact mem_RULES_of_index hr

/-- Witness for C9 at the selection ["dev", "office"]. -/
theorem C9_gpu_rank_safety_witness :
    (GPU_RANK_LABEL
      (((["dev", "office"].filterMap RULE_INDEX).map Rule.gpu_rank).foldl Nat.max 0)).isSome
      = true :=
  C9_gpu_rank_safety.2 ["dev", "office"] (by decide)

/-- Claim C6: on the multi-select aggregation branch the notes field is the
caller-order, key-deduplicated note list capped to its first 4 entries and
joined with " | "; with 5 or more distinct note keys the result joins
exactly 4 segments. -/
theorem C6_notes_merge :
    ∀ ids : List String, (∀ i ∈ ids, (RULE_INDEX i).isSome) → 2 ≤ ids.length →
      findCombo ids = none →
      ∃ s, recommend ids = some s ∧
        s.notes = String.intercalate " | " ((specDedupNotes (notesOf ids)).take 4) ∧
        (5 ≤ (specDedupNotes (notesOf ids)).length →
          ∃ l : List String, l.length = 4 ∧ s.notes = String.intercalate " | " l) := by
  intro ids hk h2 hc
  have hne : ids ≠ [] := by
    intro h
    rw [h] at h2
    exact absurd h2 (by decide)
  obtain ⟨label, _, hagg⟩ := aggregate_known ids hk hne
  have hdedup : dedupNotesAux [] (notesOf ids) = specDedupNotes (notesOf ids) := by
    rw [dedupNotesAux_eq_spec]
    congr 1
    simp
  rw [recommend_of_agg h2 hc, hagg]
  refine ⟨_, rfl, ?_, ?_⟩
  · show String.intercalate " | " ((dedupNotesAux [] (notesOf ids)).take 4) = _
    rw [hdedup]
  · intro h5
    refine ⟨(specDedupNotes (notesOf ids)).take 4, ?_, ?_⟩
    · rw [List.length_take]
      omega
    · show String.intercalate " | " ((dedupNotesAux [] (notesOf ids)).take 4) = _
      rw [hdedup]

/-- Witness for C6: five distinct workloads with five distinct note keys. -/
theorem C6_notes_merge_witness :
    ∃ s, recommend ["ml", "hpc", "video", "gaming", "dev"] = some s ∧
      s.notes = String.intercalate " | "
        ((specDedupNotes (notesOf ["ml", "hpc", "video", "gaming", "dev"])).take 4) ∧
      (5 ≤ (specDedupNotes (notesOf ["ml", "hpc", "video", "gaming", "dev"])).length →
        ∃ l : List String, l.length = 4 ∧ s.notes = String.intercalate " | " l) :=
  C6_notes_merge ["ml", "hpc", "video", "gaming", "dev"] (by decide) (by decide) (by decide)

/-- Claim C7 (amended): for known ids, `recommend` under any permutation of
the input sequence yields specs with identical cpu, ram, storage and gpu
fields; only the notes field may differ.  The original claim's stronger
clause — that the notes then differ only in the order of their merged
segments — is refuted by `C7_reorder_changes_segments`: the take-4 cap
after dedup lets the input order change which segments survive. -/
theorem C7_order_independence :
    ∀ ids ids' : List String, ids.Perm ids' → (∀ i ∈ ids, (RULE_INDEX i).isSome) →
      ∃ s s', recommend ids = some s ∧ recommend ids' = some s' ∧
        s.cpu = s'.cpu ∧ s.ram_gb = s'.ram_gb ∧ s.storage = s'.storage ∧ s.gpu = s'.gpu := by
  intro ids ids' hperm hk
  have hk' : ∀ i ∈ ids', (RULE_INDEX i).isSome := fun i hi => hk i (hperm.mem_iff.2 hi)
  by_cases hnil : ids = []
  · subst hnil
    have hnil' : ids' = [] := List.nil_perm.1 hperm
    subst hnil'
    exact ⟨DEFAULT, DEFAULT, rfl, rfl, rfl, rfl, rfl, rfl⟩
  · have hnil' : ids' ≠ [] := by
      intro h
      rw [h] at hperm
      exact hnil (List.perm_nil.1 hperm)
    cases hcombo : findCombo ids with
    | some s =>
      have hc' : findCombo ids' = some s := by
        rw [← findCombo_perm hperm]
        exact hcombo
      exact ⟨s, s, recommend_of_combo hnil hcombo, recommend_of_combo hnil' hc',
        rfl, rfl, rfl, rfl⟩
    | none =>
      have hc' : findCombo ids' = none := by
        rw [← findCombo_perm hperm]
        exact hcombo
      by_cases hlen : ids.length = 1
      · rcases ids with _ | ⟨a, rest⟩
        · exact absurd rfl hnil
        · rcases rest with _ | ⟨b, rest2⟩
          · have hids' : ids' = [a] := (List.singleton_perm.1 hperm).symm
            subst hids'
            obtain ⟨r, hr⟩ := Option.isSome_iff_exists.1 (hk a (by simp))
            have h1 := recommend_singleton hr
            exact ⟨r.base, r.base, h1, h1, rfl, rfl, rfl, rfl⟩
          · simp at hlen
      · have h2 : 2 ≤ ids.length := by
          rcases ids with _ | ⟨a, rest⟩
          · exact absurd rfl hnil
          · rcases rest with _ | ⟨b, rest2⟩
            · exact absurd rfl hlen
            · simp [List.length_cons]
        have h2' : 2 ≤ ids'.length := by
          rw [← hperm.length_eq]
          exact h2
        obtain ⟨label, hl, hagg⟩ := aggregate_known ids hk hnil
        obtain ⟨label', hl', hagg'⟩ := aggregate_known ids' hk' hnil'
        have hpm : (ids.filterMap RULE_INDEX).Perm (ids'.filterMap RULE_INDEX) :=
          hperm.filterMap RULE_INDEX
        have hcores := foldl_max_perm (hpm.map Rule.cores) 0
        have hram := foldl_max_perm (hpm.map Rule.ram) 0
        have hstor := foldl_max_perm (hpm.map Rule.storage) 0
        have hgpu := foldl_max_perm (hpm.map Rule.gpu_rank) 0
        have hlabel : label = label' := by
          rw [hgpu] at hl
          rw [hl] at hl'
          exact Option.some_inj.1 hl'
        refine ⟨_, _, by rw [recommend_of_agg h2 hcombo, hagg],
          by rw [recommend_of_agg h2' hc', hagg'], ?_, ?_, ?_, ?_⟩
        · show scale_cpu _ = scale_cpu _
          rw [hcores]
        · show ((ids.filterMap RULE_INDEX).map Rule.ram).foldl Nat.max 0 = _
          rw [hram]
        · show scale_storage _ = scale_storage _
          rw [hstor]
        · show label = label'
          exact hlabel

/-- Witness for C7: the pair office/server given in both orders. -/
theorem C7_order_independence_witness :
    ∃ s s', recommend ["office", "server"] = some s ∧
      recommend ["server", "office"] = some s' ∧
      s.cpu = s'.cpu ∧ s.ram_gb = s'.ram_gb ∧ s.storage = s'.storage ∧ s.gpu = s'.gpu :=
  C7_order_independence ["office", "server"] ["server", "office"]
    (List.Perm.swap "server" "office" []) (by decide)

/-- Counterexample to claim C7 as stated: the inputs are permutations of
one another and the four numeric/tier fields agree, but the notes fields
are joins of segment lists that are not reorderings of each other — the
take-4 cap after dedup lets the input order decide which segments survive
(the ml note appears only for the first order, the dev note only for the
second), so the notes do not differ merely in segment order. -/
theorem C7_reorder_changes_segments :
    (["ml", "hpc", "video", "gaming", "dev"] : List String).Perm
      ["dev", "gaming", "video", "hpc", "ml"] ∧
    ∃ s s', recommend ["ml", "hpc", "video", "gaming", "dev"] = some s ∧
      recommend ["dev", "gaming", "video", "hpc", "ml"] = some s' ∧
      s.cpu = s'.cpu ∧ s.ram_gb = s'.ram_gb ∧ s.storage = s'.storage ∧ s.gpu = s'.gpu ∧
      s.notes = String.intercalate " | "
        ["Heavy ML workloads need strong GPU & RAM.",
         "CPU core count & memory bandwidth critical.",
         "GPU VRAM and fast storage matter.",
         "Balance CPU/GPU; 16GB RAM baseline."] ∧
      s'.notes = String.intercalate " | "
        ["RAM helps with IDEs & containers.",
         "Balance CPU/GPU; 16GB RAM baseline.",
         "GPU VRAM and fast storage matter.",
         "CPU core count & memory bandwidth critical."] ∧
      ¬ (["Heavy ML workloads need strong GPU & RAM.",
          "CPU core count & memory bandwidth critical.",
          "GPU VRAM and fast storage matter.",
          "Balance CPU/GPU; 16GB RAM baseline."] : List String).Perm
        ["RAM helps with IDEs & containers.",
         "Balance CPU/GPU; 16GB RAM baseline.",
         "GPU VRAM and fast storage matter.",
         "CPU core count & memory bandwidth critical."] ∧
      s.notes ≠ s'.notes := by
  refine ⟨(List.reverse_perm ["ml", "hpc", "video", "gaming", "dev"]).symm,
    _, _, rfl, rfl, rfl, rfl, rfl, rfl, rfl, rfl, ?_, by decide⟩
  intro h
  have hm := h.mem_iff (a := "Heavy ML workloads need strong GPU & RAM.")
  exact absurd (hm.1 (by decide)) (by decide)
